import Mathlib

/-!
Verification of the foreign callback handle model of `src/webcore/fnhandle.rs`.

The file embeds, shallowly:
  * the data layer: the Rust structs `DropInJsOnDiscard`, `GenericFnHandle`,
    `FnOnceHandle`, `FnMutHandle`, `FnHandle` and their methods (`new`, `leak`,
    the `From` conversions, the `JsSerialize` implementations), translated
    directly from the source;
  * the host runtime and the scoped-release holder `DiscardOnDrop`, which live
    outside the given sources (the `js!` macro, `webcore::discard`,
    `webcore::once`, `webcore::mutfn`); these are modelled from the spec, and
    each such definition says so in its doc comment;
  * a lifecycle state machine `HandleSys` tying the two together: native
    events (scope-end drop, leak, conversion, serialization) and host events
    (invocation, explicit host-side drop) acting on a registered callback.
-/

/-- Modelled from the spec: `webcore::value::Reference` (external collaborator,
not under the given sources) is an opaque boundary-crossing identifier with
equality. We model it as a natural number. -/
abbrev Reference := Nat

/-- The Rust struct `DropInJsOnDiscard(Reference)` (tuple struct; the single
field `.0` is named `ref` here). -/
structure DropInJsOnDiscard where
  ref : Reference
deriving DecidableEq

/-- Modelled from the spec: `DiscardOnDrop` (`webcore::discard`, not under the
given sources) is the scoped-release holder: it wraps a discardable value,
runs its discard action exactly once when dropped, and `leak` returns the
inner value while suppressing the automatic discard.  The wrapper itself
carries only the inner value; the run-exactly-once discipline is modelled by
the `HandleSys` state machine below. -/
structure DiscardOnDrop (A : Type) where
  inner : A
deriving DecidableEq

/-- Method `DiscardOnDrop::leak`: returns the inner value, suppressing the automatic
discard (modelled from the spec, see `DiscardOnDrop`). -/
def DiscardOnDrop.leak {A : Type} (d : DiscardOnDrop A) : A := d.inner

/-- Method `DiscardOnDrop::deref` (the `Deref` impl used as `self.discarder.deref()`
in the source): borrows the inner value without consuming the holder. -/
def DiscardOnDrop.deref {A : Type} (d : DiscardOnDrop A) : A := d.inner

/-- The Rust struct `GenericFnHandle { discarder: DiscardOnDrop<DropInJsOnDiscard> }`. -/
structure GenericFnHandle where
  discarder : DiscardOnDrop DropInJsOnDiscard
deriving DecidableEq

/-- The Rust struct `FnOnceHandle<Args, Output>`: a discarder plus two phantom
type parameters carrying no runtime data. -/
structure FnOnceHandle (Args Output : Type) where
  discarder : DiscardOnDrop DropInJsOnDiscard
deriving DecidableEq

/-- The Rust struct `FnMutHandle<Args, Output>`. -/
structure FnMutHandle (Args Output : Type) where
  discarder : DiscardOnDrop DropInJsOnDiscard
deriving DecidableEq

/-- The Rust struct `FnHandle<Args, Output>`. -/
structure FnHandle (Args Output : Type) where
  discarder : DiscardOnDrop DropInJsOnDiscard
deriving DecidableEq

/-- Constructor `GenericFnHandle::new(reference)`:
`GenericFnHandle { discarder: DiscardOnDrop::new(DropInJsOnDiscard(reference)) }`. -/
def GenericFnHandle.new (reference : Reference) : GenericFnHandle :=
  { discarder := { inner := { ref := reference } } }

/-- Method `GenericFnHandle::leak`: `self.discarder.leak().0`. -/
def GenericFnHandle.leak (h : GenericFnHandle) : Reference :=
  h.discarder.leak.ref

/-- Method `FnOnceHandle::leak`: `self.discarder.leak().0`. -/
def FnOnceHandle.leak {A O : Type} (h : FnOnceHandle A O) : Reference :=
  h.discarder.leak.ref

/-- Method `FnMutHandle::leak`: `self.discarder.leak().0`. -/
def FnMutHandle.leak {A O : Type} (h : FnMutHandle A O) : Reference :=
  h.discarder.leak.ref

/-- Method `FnHandle::leak`: `self.discarder.leak().0`. -/
def FnHandle.leak {A O : Type} (h : FnHandle A O) : Reference :=
  h.discarder.leak.ref

/-- Conversion `impl From<FnOnceHandle<Args, Output>> for GenericFnHandle`:
`GenericFnHandle::new(value.leak())`. -/
def GenericFnHandle.fromFnOnceHandle {A O : Type} (value : FnOnceHandle A O) :
    GenericFnHandle :=
  GenericFnHandle.new value.leak

/-- Conversion `impl From<FnMutHandle<Args, Output>> for GenericFnHandle`:
`GenericFnHandle::new(value.leak())`. -/
def GenericFnHandle.fromFnMutHandle {A O : Type} (value : FnMutHandle A O) :
    GenericFnHandle :=
  GenericFnHandle.new value.leak

/-- Conversion `impl From<FnHandle<Args, Output>> for GenericFnHandle`:
`GenericFnHandle::new(value.leak())`. -/
def GenericFnHandle.fromFnHandle {A O : Type} (value : FnHandle A O) :
    GenericFnHandle :=
  GenericFnHandle.new value.leak

/-- Modelled from the spec: `SerializedValue` (the value-serialization layer,
external collaborator) as produced for a `Reference`; the spec treats the
conversion as opaque, so we record exactly the reference that was passed. -/
structure SerializedValue where
  ref : Reference
deriving DecidableEq

/-- Modelled from the spec: `Reference::_into_js` of the external serialization
layer passes the reference across the boundary unchanged. -/
def Reference.intoJs (r : Reference) : SerializedValue := { ref := r }

/-- Serialization `impl JsSerialize for &GenericFnHandle`: `self.discarder.deref().0._into_js()`. -/
def GenericFnHandle.intoJs (h : GenericFnHandle) : SerializedValue :=
  h.discarder.deref.ref.intoJs

/-- Serialization `impl JsSerialize for &FnOnceHandle`: `self.discarder.deref().0._into_js()`. -/
def FnOnceHandle.intoJs {A O : Type} (h : FnOnceHandle A O) : SerializedValue :=
  h.discarder.deref.ref.intoJs

/-- Serialization `impl JsSerialize for &FnMutHandle`: `self.discarder.deref().0._into_js()`. -/
def FnMutHandle.intoJs {A O : Type} (h : FnMutHandle A O) : SerializedValue :=
  h.discarder.deref.ref.intoJs

/-- Serialization `impl JsSerialize for &FnHandle`: `self.discarder.deref().0._into_js()`. -/
def FnHandle.intoJs {A O : Type} (h : FnHandle A O) : SerializedValue :=
  h.discarder.deref.ref.intoJs

/-- The three call-arity classes of callback registration: `Once` (consume
once), `Mut` (exclusive mutable, repeatable), and the plain shared `Fn`.
Mirrors which of the three `From<F>` impls registered the closure. -/
inductive CallKind where
  | once
  | mut
  | shared
deriving DecidableEq

/-- Modelled from the spec: the host-side registration produced by the `js!`
calls in the three `From<F>` impls (the `Once` / `Mut` wrappers and the host
object model are not under the given sources).  A registered callback has a
call-arity class, a native closure with internal state of type `sig` and a
step function `body` (state and one integer argument in, state and integer
result out), an internal-state value, a `registered` flag (the host removes
the registration on `.drop()` and, for Once, after the first call; invoking
an unregistered reference raises a host `ReferenceError`, rendered as `none`),
an `inProgress` flag marking a Mut invocation still on the call stack, and
`dropEffects` counting how many times the native closure's destructor has
run (the drop-effect counter of the spec's tests). -/
structure HostCallback (sig : Type) where
  kind : CallKind
  body : sig → Int → sig × Int
  st : sig
  registered : Bool
  inProgress : Bool
  dropEffects : Nat

/-- Modelled from the spec: the host-side `.drop()` operation invoked by
`DropInJsOnDiscard::discard` (`js! { @{self.0}.drop(); }`) or by explicit
host-side cleanup: it removes the registration, so the native closure is
dropped (its destructor runs) when one was still registered. -/
def HostCallback.hostDrop {sig : Type} (c : HostCallback sig) : HostCallback sig :=
  if c.registered then
    { c with registered := false, dropEffects := c.dropEffects + 1 }
  else c

/-- Modelled from the spec: the entry check of a host-side invocation.  An
unregistered reference is rejected (host raises `ReferenceError`); a Mut
callback whose previous invocation is still on the call stack is rejected as
a usage error without touching the closure; an accepted Mut invocation marks
itself in progress.  The boolean is `true` iff the invocation is accepted. -/
def HostCallback.beginInvoke {sig : Type} (c : HostCallback sig) :
    HostCallback sig × Bool :=
  if c.registered then
    match c.kind with
    | .mut => if c.inProgress then (c, false) else ({ c with inProgress := true }, true)
    | _ => (c, true)
  else (c, false)

/-- Modelled from the spec: the body of an accepted host-side invocation: the
native closure runs on the argument and updates its state; a Once callback's
registration is then removed (not merely marked) and the consumed closure is
dropped, so its destructor runs; a Mut callback clears its in-progress mark
on return. -/
def HostCallback.completeInvoke {sig : Type} (c : HostCallback sig) (x : Int) :
    HostCallback sig × Int :=
  match c.body c.st x with
  | (st1, y) =>
    match c.kind with
    | .once =>
        ({ c with st := st1, registered := false, dropEffects := c.dropEffects + 1 }, y)
    | .mut => ({ c with st := st1, inProgress := false }, y)
    | .shared => ({ c with st := st1 }, y)

/-- Modelled from the spec: a complete (non-reentrant) host-side invocation:
the entry check followed, when accepted, by the closure body; `none` renders
a raised host-side error. -/
def HostCallback.invoke {sig : Type} (c : HostCallback sig) (x : Int) :
    HostCallback sig × Option Int :=
  match c.beginInvoke with
  | (c1, false) => (c1, none)
  | (c1, true) =>
    match c1.completeInvoke x with
    | (c2, y) => (c2, some y)

/-- The ownership status of the (unique) native scoped-release holder of a
registration: `live` (a handle owning the registration exists and will
discard it on drop), `leaked` (`leak()` consumed the handle and suppressed
the automatic discard), `dropped` (the holder was dropped and its discard
ran).  Embeds Rust move semantics for `DiscardOnDrop`. -/
inductive HandleStatus where
  | live
  | leaked
  | dropped
deriving DecidableEq

/-- The combined lifecycle state of one callback handle: the Foreign Reference
it owns, the native ownership status, the host-side registration, and a count
of executions of the native release action (`DropInJsOnDiscard::discard`,
i.e. the `js! { @{self.0}.drop(); }` call). -/
structure HandleSys (sig : Type) where
  ref : Reference
  status : HandleStatus
  cb : HostCallback sig
  releases : Nat

/-- The lifecycle state of a freshly registered callback handle (any of the
three `From<F>` impls followed by wrapping in `DiscardOnDrop`): the holder is
live, the host registration is in place, no invocation is in progress, no
destructor has run, no release has executed. -/
def HandleSys.init (sig : Type) (r : Reference) (k : CallKind)
    (b : sig → Int → sig × Int) (s0 : sig) : HandleSys sig :=
  { ref := r
    status := .live
    cb := { kind := k, body := b, st := s0, registered := true,
            inProgress := false, dropEffects := 0 }
    releases := 0 }

/-- The events that can act on a handle's lifecycle.  Native side:
`dropHandle` (explicit `drop` or scope exit of whichever value currently owns
the discarder), `leak` (`leak()`), `convert` (the `From` conversion into a
`GenericFnHandle`: `GenericFnHandle::new(value.leak())`, transferring the
live discarder to the new handle), `serialize` (the `JsSerialize` impl on a
borrowed handle).  Host side: `invoke x` (a complete host invocation),
`hostDrop` (explicit host-side `.drop()` cleanup). -/
inductive Event where
  | dropHandle
  | leak
  | convert
  | serialize
  | invoke (x : Int)
  | hostDrop

/-- One lifecycle step.  Dropping a live holder runs the release action
(`DropInJsOnDiscard::discard`) exactly here; dropping a leaked or already
dropped holder is impossible in Rust (the value was moved) and is a no-op.
`leak` consumes the handle, suppressing the automatic release.  `convert`
moves the live discarder into the `GenericFnHandle` unchanged, touching
nothing host-side.  `serialize` borrows the handle and passes the reference,
touching nothing.  Host events act on the host registration only. -/
def HandleSys.step {sig : Type} (s : HandleSys sig) : Event → HandleSys sig
  | .dropHandle =>
    match s.status with
    | .live =>
      { s with
        status := .dropped
        cb := s.cb.hostDrop
        releases := s.releases + 1 }
    | _ => s
  | .leak =>
    match s.status with
    | .live => { s with status := .leaked }
    | _ => s
  | .convert => s
  | .serialize => s
  | .invoke x => { s with cb := (s.cb.invoke x).1 }
  | .hostDrop => { s with cb := s.cb.hostDrop }

/-- Running a list of lifecycle events from a state. -/
def HandleSys.run {sig : Type} (s : HandleSys sig) : List Event → HandleSys sig
  | [] => s
  | e :: es => (s.step e).run es

/-- The value returned by `leak()`: the raw Foreign Reference
(`self.discarder.leak().0`). -/
def HandleSys.leakResult {sig : Type} (s : HandleSys sig) : Reference := s.ref

/-- The value passed to the boundary by the `JsSerialize` impls:
`self.discarder.deref().0._into_js()`. -/
def HandleSys.serializeResult {sig : Type} (s : HandleSys sig) : SerializedValue :=
  s.ref.intoJs

/-- A host invocation of an unregistered reference raises a host error and
leaves the registration state unchanged. -/
theorem HostCallback.invoke_unregistered {sig : Type} (c : HostCallback sig)
    (x : Int) (h : c.registered = false) : c.invoke x = (c, none) := by
  simp [HostCallback.invoke, HostCallback.beginInvoke, h]

/-- The host-side `.drop()` on an already unregistered reference does nothing. -/
theorem HostCallback.hostDrop_unregistered {sig : Type} (c : HostCallback sig)
    (h : c.registered = false) : c.hostDrop = c := by
  simp [HostCallback.hostDrop, h]

/-- A lifecycle step on a handle whose scoped holder is no longer live (it was
leaked or already dropped) changes neither the status nor the release count. -/
theorem HandleSys.step_stuck {sig : Type} (s : HandleSys sig) (e : Event)
    (h : s.status ≠ HandleStatus.live) :
    (s.step e).status = s.status ∧ (s.step e).releases = s.releases := by
  obtain ⟨r, stat, cb, n⟩ := s
  cases e <;> cases stat <;> simp_all [HandleSys.step]

/-- Running any event list from a non-live holder changes neither the status
nor the release count. -/
theorem HandleSys.run_stuck {sig : Type} (s : HandleSys sig) (es : List Event)
    (h : s.status ≠ HandleStatus.live) :
    (s.run es).status = s.status ∧ (s.run es).releases = s.releases := by
  induction es generalizing s with
  | nil => exact ⟨rfl, rfl⟩
  | cons e es ih =>
    obtain ⟨h1, h2⟩ := HandleSys.step_stuck s e h
    obtain ⟨h4, h5⟩ := ih (s.step e) (by rw [h1]; exact h)
    exact ⟨by rw [HandleSys.run, h4, h1], by rw [HandleSys.run, h5, h2]⟩

/-- The release-count invariant: at most one release has executed, and none
has while the holder is still live. -/
def HandleSys.relInv {sig : Type} (s : HandleSys sig) : Prop :=
  s.releases ≤ 1 ∧ (s.status = HandleStatus.live → s.releases = 0)

/-- Every lifecycle step preserves the release-count invariant. -/
theorem HandleSys.step_relInv {sig : Type} (s : HandleSys sig) (e : Event)
    (h : s.relInv) : (s.step e).relInv := by
  obtain ⟨r, stat, cb, n⟩ := s
  obtain ⟨h1, h2⟩ := h
  cases e <;> cases stat <;> simp_all [HandleSys.step, HandleSys.relInv]

/-- Running any event list preserves the release-count invariant. -/
theorem HandleSys.run_relInv {sig : Type} (s : HandleSys sig) (es : List Event)
    (h : s.relInv) : (s.run es).relInv := by
  induction es generalizing s with
  | nil => exact h
  | cons e es ih => exact ih (s.step e) (HandleSys.step_relInv s e h)

/-- No lifecycle step ever re-registers an unregistered reference. -/
theorem HandleSys.step_unregistered {sig : Type} (s : HandleSys sig) (e : Event)
    (h : s.cb.registered = false) : (s.step e).cb.registered = false := by
  obtain ⟨r, stat, cb, n⟩ := s
  cases e <;> cases stat <;>
    simp_all [HandleSys.step, HostCallback.hostDrop, HostCallback.invoke,
      HostCallback.beginInvoke]

/-- No event list ever re-registers an unregistered reference. -/
theorem HandleSys.run_unregistered {sig : Type} (s : HandleSys sig)
    (es : List Event) (h : s.cb.registered = false) :
    (s.run es).cb.registered = false := by
  induction es generalizing s with
  | nil => exact h
  | cons e es ih => exact ih (s.step e) (HandleSys.step_unregistered s e h)

/-- Claim C1: for every callback handle (Once, Mut, or Shared variant),
converting it into a `GenericFnHandle` via the `From` impl and then leaking
the generic handle yields the same Foreign Reference value as leaking the
original typed handle directly, and the conversion itself performs no
host-side release: a `convert` lifecycle step leaves the release count and
the host-side registration untouched. -/
theorem claim_c1_conversion_leak_roundtrip :
    (∀ (A O : Type) (h : FnOnceHandle A O),
      (GenericFnHandle.fromFnOnceHandle h).leak = h.leak) ∧
    (∀ (A O : Type) (h : FnMutHandle A O),
      (GenericFnHandle.fromFnMutHandle h).leak = h.leak) ∧
    (∀ (A O : Type) (h : FnHandle A O),
      (GenericFnHandle.fromFnHandle h).leak = h.leak) ∧
    (∀ (sig : Type) (s : HandleSys sig),
      (s.step Event.convert).releases = s.releases ∧
      (s.step Event.convert).cb = s.cb) := by
  exact ⟨fun A O h => rfl, fun A O h => rfl, fun A O h => rfl,
    fun sig s => ⟨rfl, rfl⟩⟩

/-- Claim C2: leaking a freshly registered handle (any call-arity class, hence
any of the three typed variants, and likewise the generic handle, which owns
the same discarder) consumes the handle (the holder is no longer live),
returns the raw Foreign Reference it was registered with, and suppresses the
automatic release: no event sequence run after the leak — scope exits
included — ever executes the release action. -/
theorem claim_c2_leak_suppresses_release :
    ∀ (sig : Type) (r : Reference) (k : CallKind) (b : sig → Int → sig × Int)
      (s0 : sig) (es : List Event),
      ((HandleSys.init sig r k b s0).step Event.leak).leakResult = r ∧
      ((HandleSys.init sig r k b s0).step Event.leak).status =
        HandleStatus.leaked ∧
      (((HandleSys.init sig r k b s0).step Event.leak).run es).releases = 0 := by
  intro sig r k b s0 es
  have h1 : ((HandleSys.init sig r k b s0).step Event.leak).status =
      HandleStatus.leaked := rfl
  have h2 := HandleSys.run_stuck ((HandleSys.init sig r k b s0).step Event.leak)
    es (by rw [h1]; intro hc; cases hc)
  exact ⟨rfl, h1, h2.2⟩

/-- Claim C3: over the entire lifecycle of a freshly registered handle, the
release action (the host-side drop of the Foreign Reference performed by
`DropInJsOnDiscard::discard`) executes at most once, whatever combination of
lifecycle events (explicit drop, scope exit, leak, conversion, serialization,
host invocations, host-side cleanup) occurs. -/
theorem claim_c3_release_at_most_once :
    ∀ (sig : Type) (r : Reference) (k : CallKind) (b : sig → Int → sig × Int)
      (s0 : sig) (es : List Event),
      ((HandleSys.init sig r k b s0).run es).releases ≤ 1 := by
  intro sig r k b s0 es
  have h0 : (HandleSys.init sig r k b s0).relInv :=
    ⟨Nat.zero_le 1, fun _ => rfl⟩
  exact (HandleSys.run_relInv (HandleSys.init sig r k b s0) es h0).1

/-- Claim C4: dropping a freshly registered handle of any call-arity class
(hence of each of the three variants) without leaking it runs the host-side
drop — the release executes, the registration is removed, and the native
closure's destructor runs — and every subsequent host-side invocation
attempt, after any further event sequence, raises an observable host error
(`none`) while changing nothing, rather than silently doing nothing while
appearing to succeed. -/
theorem claim_c4_drop_invalidates :
    ∀ (sig : Type) (r : Reference) (k : CallKind) (b : sig → Int → sig × Int)
      (s0 : sig) (es : List Event) (x : Int),
      ((HandleSys.init sig r k b s0).step Event.dropHandle).releases = 1 ∧
      ((HandleSys.init sig r k b s0).step Event.dropHandle).cb.registered =
        false ∧
      ((HandleSys.init sig r k b s0).step Event.dropHandle).cb.dropEffects = 1 ∧
      ((((HandleSys.init sig r k b s0).step Event.dropHandle).run es).cb.invoke
          x) =
        ((((HandleSys.init sig r k b s0).step Event.dropHandle).run es).cb,
          none) := by
  intro sig r k b s0 es x
  have h1 : ((HandleSys.init sig r k b s0).step
      Event.dropHandle).cb.registered = false := by
    simp [HandleSys.init, HandleSys.step, HostCallback.hostDrop]
  have h2 := HandleSys.run_unregistered
    ((HandleSys.init sig r k b s0).step Event.dropHandle) es h1
  refine ⟨by simp [HandleSys.init, HandleSys.step], h1,
    by simp [HandleSys.init, HandleSys.step, HostCallback.hostDrop],
    HostCallback.invoke_unregistered _ x h2⟩

/-- Claim C5: a freshly registered Once-class callback may be invoked at most
once: the first host-side invocation returns the closure's result and removes
the registration, running the closure's cleanup (destructor) exactly once;
a second invocation raises a host-side error (`none`) and changes nothing —
the closure's body is not re-executed and the cleanup counter stays at one. -/
theorem claim_c5_once_single_use :
    ∀ (sig : Type) (r : Reference) (b : sig → Int → sig × Int) (s0 : sig)
      (x y : Int),
      ((HandleSys.init sig r CallKind.once b s0).cb.invoke x).2 =
        some (b s0 x).2 ∧
      ((HandleSys.init sig r CallKind.once b s0).cb.invoke x).1.st =
        (b s0 x).1 ∧
      ((HandleSys.init sig r CallKind.once b s0).cb.invoke x).1.registered =
        false ∧
      ((HandleSys.init sig r CallKind.once b s0).cb.invoke x).1.dropEffects =
        1 ∧
      (((HandleSys.init sig r CallKind.once b s0).cb.invoke x).1.invoke y) =
        (((HandleSys.init sig r CallKind.once b s0).cb.invoke x).1, none) := by
  intro sig r b s0 x y
  rcases hbx : b s0 x with ⟨st1, yv⟩
  simp [HandleSys.init, HostCallback.invoke, HostCallback.beginInvoke,
    HostCallback.completeInvoke, hbx]

/-- Claim C6: a reentrant host-side invocation of a Mut-class callback — one
beginning while a prior invocation of the same callback is still on the call
stack — is detected and rejected with a host-side usage error (`false`),
leaving the callback state untouched (the closure body never runs with
aliased mutable state), whereas the first, non-overlapping invocation entry
is accepted. -/
theorem claim_c6_mut_reentrancy_rejected :
    ∀ (sig : Type) (r : Reference) (b : sig → Int → sig × Int) (s0 : sig),
      ((HandleSys.init sig r CallKind.mut b s0).cb.beginInvoke).2 = true ∧
      ((HandleSys.init sig r CallKind.mut b s0).cb.beginInvoke).1.inProgress =
        true ∧
      (((HandleSys.init sig r CallKind.mut b s0).cb.beginInvoke).1.beginInvoke)
        =
        ((((HandleSys.init sig r CallKind.mut b s0).cb.beginInvoke).1),
          false) := by
  intro sig r b s0
  simp [HandleSys.init, HostCallback.beginInvoke]

/-- Claim C7, counterexample: the claim says a `GenericFnHandle` can be
obtained only by consuming a typed handle and that there is no way to obtain
one from an arbitrary Foreign Reference — but the source's public constructor
`GenericFnHandle::new` (src/webcore/fnhandle.rs, line 177) takes a bare
`Reference`.  At the concrete reference `7`, `GenericFnHandle.new 7` is a
generic handle holding exactly the arbitrary reference `7`, constructed
without any typed handle being consumed. -/
theorem claim_c7_counterexample :
    GenericFnHandle.new 7 =
      { discarder := { inner := { ref := 7 } } } ∧
    (GenericFnHandle.new 7).leak = 7 := ⟨rfl, rfl⟩

/-- Claim C7, amended: a `GenericFnHandle` can be constructed either by
consuming (moving out of) a typed handle of any of the three variants — each
`From` conversion factors as `GenericFnHandle::new(value.leak())`, with
`leak` consuming the typed handle, so the original typed handle no longer
exists after the conversion — or directly from an arbitrary Foreign Reference
via the public constructor `GenericFnHandle::new`, which holds exactly the
reference it was given. -/
theorem claim_c7_generic_construction :
    (∀ (A O : Type) (h : FnOnceHandle A O),
      GenericFnHandle.fromFnOnceHandle h = GenericFnHandle.new h.leak) ∧
    (∀ (A O : Type) (h : FnMutHandle A O),
      GenericFnHandle.fromFnMutHandle h = GenericFnHandle.new h.leak) ∧
    (∀ (A O : Type) (h : FnHandle A O),
      GenericFnHandle.fromFnHandle h = GenericFnHandle.new h.leak) ∧
    (∀ (r : Reference), (GenericFnHandle.new r).leak = r) ∧
    (∀ (sig : Type) (s : HandleSys sig),
      (s.step Event.leak).status ≠ HandleStatus.live) := by
  refine ⟨fun A O h => rfl, fun A O h => rfl, fun A O h => rfl,
    fun r => rfl, fun sig s => ?_⟩
  obtain ⟨r, stat, cb, n⟩ := s
  cases stat <;> simp [HandleSys.step]

/-- A Mut-class closure capturing a running total: the internal state is the
total, each call adds its integer input to it (the test closure of the source
returns no value, rendered as `0`). -/
def mutTotalBody (s : Int) (x : Int) : Int × Int := (s + x, 0)

/-- Claim C8: a Mut-class callback capturing a running total, invoked from the
host with inputs `2` then `3`, has accumulated a total of `5` before release
while its drop-effect counter is still `0` (not incremented per call); after
release (dropping the handle) the drop-effect counter has incremented exactly
once, to `1`, and the total is unchanged. -/
theorem claim_c8_mut_accumulates :
    ((((HandleSys.init Int 0 CallKind.mut mutTotalBody 0).step
        (Event.invoke 2)).step (Event.invoke 3)).cb.st = 5) ∧
    ((((HandleSys.init Int 0 CallKind.mut mutTotalBody 0).step
        (Event.invoke 2)).step (Event.invoke 3)).cb.dropEffects = 0) ∧
    (((((HandleSys.init Int 0 CallKind.mut mutTotalBody 0).step
        (Event.invoke 2)).step (Event.invoke 3)).step
        Event.dropHandle).cb.dropEffects = 1) ∧
    (((((HandleSys.init Int 0 CallKind.mut mutTotalBody 0).step
        (Event.invoke 2)).step (Event.invoke 3)).step
        Event.dropHandle).cb.st = 5) := by
  refine ⟨rfl, rfl, rfl, rfl⟩

/-- Claim C9: serializing a handle for a boundary call site (the `JsSerialize`
impl on a borrowed handle, for each of the four handle types) passes the
underlying Foreign Reference unchanged — the serialized value holds exactly
the reference `leak` would return — and leaves the handle's state completely
untouched: a `serialize` lifecycle step is the identity, so it consumes
nothing and releases nothing, and the automatic release still fires at scope
end afterwards. -/
theorem claim_c9_serialize_frame :
    (∀ (g : GenericFnHandle), g.intoJs = g.leak.intoJs) ∧
    (∀ (A O : Type) (h : FnOnceHandle A O), h.intoJs = h.leak.intoJs) ∧
    (∀ (A O : Type) (h : FnMutHandle A O), h.intoJs = h.leak.intoJs) ∧
    (∀ (A O : Type) (h : FnHandle A O), h.intoJs = h.leak.intoJs) ∧
    (∀ (sig : Type) (s : HandleSys sig), s.step Event.serialize = s) ∧
    (∀ (sig : Type) (r : Reference) (k : CallKind)
      (b : sig → Int → sig × Int) (s0 : sig),
      ((HandleSys.init sig r k b s0).step Event.serialize).serializeResult =
        r.intoJs ∧
      (((HandleSys.init sig r k b s0).step Event.serialize).step
        Event.dropHandle).releases = 1) := by
  refine ⟨fun g => rfl, fun A O h => rfl, fun A O h => rfl, fun A O h => rfl,
    fun sig s => rfl, fun sig r k b s0 => ⟨rfl, rfl⟩⟩

/-- Claim C10: for every Foreign Reference `r`, constructing a
`GenericFnHandle` from `r` via `new` and immediately leaking it returns `r`
itself, and no host-side release occurs in between: in the lifecycle machine,
leaking the freshly constructed handle yields `r` with the release count
still `0`. -/
theorem claim_c10_new_leak_identity :
    ∀ (r : Reference),
      (GenericFnHandle.new r).leak = r ∧
      ∀ (sig : Type) (k : CallKind) (b : sig → Int → sig × Int) (s0 : sig),
        ((HandleSys.init sig r k b s0).step Event.leak).leakResult = r ∧
        ((HandleSys.init sig r k b s0).step Event.leak).releases = 0 := by
  intro r
  exact ⟨rfl, fun sig k b s0 => ⟨rfl, rfl⟩⟩
